import Mathlib

/-!
Screen callback registry, render hook and guarded exit of `ui_common.c`.

A shallow embedding of `io_seproxyhal_display`, `register_ui_callback` and
`exit_app` from `src/ui_common.c`.

* Application memory is an explicit state (`State`): the two prompt arrays
  `global.ui.prompt.callbacks` and `global.ui.prompt.callback_data`, each with
  exactly `MAX_SCREEN_COUNT` cells, and `rest`, which stands for every other
  byte of application memory.
* A C function is a `Prog`: a function from the state before the call to a
  `Step`, which records how the call ended (`Outcome`), the state after it and
  the platform primitives it invoked, in order (`ExtCall`).
* The platform primitives (`io_seproxyhal_display_default`, `require_pin`,
  `os_sched_exit`) are not part of this source file.  What each of them does
  when invoked is a parameter (`Platform`), so every theorem quantifies over
  every behaviour of the platform.
* The preprocessor constants `MAX_SCREEN_COUNT` and `EXC_MEMORY_ERROR` come
  from headers that are not part of this source file; both are parameters.
-/

namespace UiCommon

/-! ## Data model -/

/-- C `uint32_t`, held as a natural number. -/
abbrev uint32_t := Nat

/-- C `string_generation_callback`: a function pointer, held as its address. -/
abbrev string_generation_callback := Nat

/-- C `const void *`: a data pointer, held as its address. -/
abbrev void_ptr := Nat

/-- C `const bagl_element_t *`: a pointer to a screen element, held as its address. -/
abbrev bagl_element_ptr := Nat

/-- The member `global.ui.prompt`: two arrays of `MAX_SCREEN_COUNT` cells each.
A cell exists for an index exactly when the index is below `MAX_SCREEN_COUNT`. -/
structure Prompt (MAX_SCREEN_COUNT : Nat) where
  callbacks : Fin MAX_SCREEN_COUNT → string_generation_callback
  callback_data : Fin MAX_SCREEN_COUNT → void_ptr

/-- Application memory: the prompt arrays and, in `rest`, everything else
(the other members of `global`, the screen elements, ...). -/
structure State (MAX_SCREEN_COUNT : Nat) (Mem : Type) where
  prompt : Prompt MAX_SCREEN_COUNT
  rest : Mem

/-- An invocation of a platform primitive, with its actual arguments. -/
inductive ExtCall where
  | io_seproxyhal_display_default (element : bagl_element_ptr)
  | require_pin
  | os_sched_exit (exit_code : Int)
  deriving DecidableEq

/-- How a call ends. -/
inductive Outcome (α : Type) where
  /-- control comes back to the caller, with the returned value -/
  | returned (value : α)
  /-- an exception is in flight (`THROW`) -/
  | thrown (exception : Nat)
  /-- the process has been terminated by the operating system -/
  | terminated
  /-- control is stuck inside a platform primitive forever -/
  | blocked
  deriving DecidableEq

/-- What a platform primitive does when it is invoked. -/
inductive Behaviour where
  | returns
  | throws (exception : Nat)
  | terminates
  | hangs
  deriving DecidableEq

/-- The platform: the behaviour of each primitive this file calls. -/
structure Platform where
  io_seproxyhal_display_default : bagl_element_ptr → Behaviour
  require_pin : Behaviour
  os_sched_exit : Int → Behaviour

/-- The result of running a piece of code from a given state. -/
structure Step (MAX_SCREEN_COUNT : Nat) (Mem : Type) (α : Type) where
  outcome : Outcome α
  state : State MAX_SCREEN_COUNT Mem
  calls : List ExtCall

/-- A piece of C code with result type `α`. -/
def Prog (MAX_SCREEN_COUNT : Nat) (Mem : Type) (α : Type) : Type :=
  State MAX_SCREEN_COUNT Mem → Step MAX_SCREEN_COUNT Mem α

section Semantics

variable {MAX_SCREEN_COUNT : Nat} {Mem : Type} {α β : Type}

/-- Falling through / `return value;`. -/
def Prog.ret (value : α) : Prog MAX_SCREEN_COUNT Mem α :=
  fun s => ⟨.returned value, s, []⟩

/-- Sequencing `p; q`: `q` runs only when `p` gives control back. -/
def Prog.seq (p : Prog MAX_SCREEN_COUNT Mem α) (q : α → Prog MAX_SCREEN_COUNT Mem β) :
    Prog MAX_SCREEN_COUNT Mem β :=
  fun s =>
    let r := p s
    match r.outcome with
    | .returned v =>
        let r2 := q v r.state
        ⟨r2.outcome, r2.state, r.calls ++ r2.calls⟩
    | .thrown e => ⟨.thrown e, r.state, r.calls⟩
    | .terminated => ⟨.terminated, r.state, r.calls⟩
    | .blocked => ⟨.blocked, r.state, r.calls⟩

instance : Monad (Prog MAX_SCREEN_COUNT Mem) where
  pure := Prog.ret
  bind := Prog.seq

/-- The platform construct `THROW(exception)`. -/
def THROW (exception : Nat) : Prog MAX_SCREEN_COUNT Mem α :=
  fun s => ⟨.thrown exception, s, []⟩

/-- Invoking a platform primitive: the call is recorded with its arguments and
ends the way the platform says. What the primitive does on its own side (the
screen, the scheduler, the PIN dialogue) is outside `State`; the call itself
writes no application memory. -/
def invoke (call : ExtCall) (b : Behaviour) : Prog MAX_SCREEN_COUNT Mem Unit :=
  fun s =>
    match b with
    | .returns => ⟨.returned (), s, [call]⟩
    | .throws e => ⟨.thrown e, s, [call]⟩
    | .terminates => ⟨.terminated, s, [call]⟩
    | .hangs => ⟨.blocked, s, [call]⟩

/-- The platform construct
`BEGIN_TRY_L(l) { TRY_L(l) { body } FINALLY_L(l) { fin } } END_TRY_L(l);`
without a `CATCH` clause: `fin` runs when `body` gives control back or throws,
and an exception thrown by `body` is thrown again after `fin`. -/
def try_finally (body : Prog MAX_SCREEN_COUNT Mem Unit) (fin : Prog MAX_SCREEN_COUNT Mem Unit) :
    Prog MAX_SCREEN_COUNT Mem Unit :=
  fun s =>
    let r := body s
    match r.outcome with
    | .returned _ =>
        let r2 := fin r.state
        ⟨r2.outcome, r2.state, r.calls ++ r2.calls⟩
    | .thrown e =>
        let r2 := fin r.state
        match r2.outcome with
        | .returned _ => ⟨.thrown e, r2.state, r.calls ++ r2.calls⟩
        | o => ⟨o, r2.state, r.calls ++ r2.calls⟩
    | .terminated => ⟨.terminated, r.state, r.calls⟩
    | .blocked => ⟨.blocked, r.state, r.calls⟩

/-- Conversion of a C `int` to an unsigned integer type of `width` bits. -/
def to_unsigned (width : Nat) (x : Int) : Int := x % 2 ^ width

/-- Recognises an invocation of `os_sched_exit`. -/
def is_os_sched_exit : ExtCall → Bool
  | .os_sched_exit _ => true
  | _ => false

end Semantics

/-! ## The functions of `ui_common.c` -/

section Code

variable {MAX_SCREEN_COUNT : Nat} {Mem : Type}

/-- Source lines 8 to 10:

     8  void io_seproxyhal_display(const bagl_element_t *element) {
     9      return io_seproxyhal_display_default((bagl_element_t *)element);
    10  }

The element is handed on by pointer; nothing is written before or after the call. -/
def io_seproxyhal_display (env : Platform) (element : bagl_element_ptr) :
    Prog MAX_SCREEN_COUNT Mem Unit :=
  invoke (.io_seproxyhal_display_default element) (env.io_seproxyhal_display_default element)

/-- Source lines 16 to 20:

    16  void register_ui_callback(uint32_t which, string_generation_callback cb, const void *data) {
    17      if (which >= MAX_SCREEN_COUNT) THROW(EXC_MEMORY_ERROR);
    18      global.ui.prompt.callbacks[which] = cb;
    19      global.ui.prompt.callback_data[which] = data;
    20  }

The two array writes need a cell to write to: the index they use is built from
the failed test of line 17. -/
def register_ui_callback (EXC_MEMORY_ERROR : Nat) (which : uint32_t)
    (cb : string_generation_callback) (data : void_ptr) : Prog MAX_SCREEN_COUNT Mem Unit :=
  fun global =>
    if h : which ≥ MAX_SCREEN_COUNT then
      THROW EXC_MEMORY_ERROR global
    else
      let i : Fin MAX_SCREEN_COUNT := ⟨which, Nat.lt_of_not_ge h⟩
      let global1 : State MAX_SCREEN_COUNT Mem :=
        { global with prompt := { global.prompt with
            callbacks := Function.update global.prompt.callbacks i cb } }
      let global2 : State MAX_SCREEN_COUNT Mem :=
        { global1 with prompt := { global1.prompt with
            callback_data := Function.update global1.prompt.callback_data i data } }
      ⟨.returned (), global2, []⟩

/-- Source lines 22 to 37:

    22  __attribute__((noreturn))
    23  bool exit_app(void) {
    24  #ifdef BAKING_APP
    25      require_pin();
    26  #endif
    27      BEGIN_TRY_L(exit) {
    28          TRY_L(exit) {
    29              os_sched_exit(-1);
    30          }
    31          FINALLY_L(exit) {
    32          }
    33      }
    34      END_TRY_L(exit);
    35
    36      THROW(0); // Suppress warning
    37  }

`BAKING_APP` says whether the build defines the preprocessor symbol. -/
def exit_app (BAKING_APP : Bool) (env : Platform) : Prog MAX_SCREEN_COUNT Mem Bool := do
  if BAKING_APP then
    invoke .require_pin env.require_pin
  try_finally
    (invoke (.os_sched_exit (-1)) (env.os_sched_exit (-1)))
    (pure ())
  THROW 0

end Code

/-! ## Concrete data used to instantiate the theorems -/

/-- A registry with three screens, every cell null, and one word of other memory. -/
def state0 : State 3 Nat :=
  { prompt := { callbacks := fun _ => 0, callback_data := fun _ => 0 }, rest := 42 }

/-- A platform on which everything works as documented: the render routine and
the PIN check give control back and `os_sched_exit` terminates the process. -/
def nominal : Platform :=
  { io_seproxyhal_display_default := fun _ => .returns
    require_pin := .returns
    os_sched_exit := fun _ => .terminates }

/-- A platform on which the PIN check throws `0x6982`. -/
def pin_refused : Platform :=
  { nominal with require_pin := .throws 0x6982 }

/-- A platform on which `os_sched_exit` gives control back. -/
def exit_returns : Platform :=
  { nominal with os_sched_exit := fun _ => .returns }

/-! ## Theorems about `register_ui_callback` -/

section Registry

variable {MAX_SCREEN_COUNT : Nat} {Mem : Type}

/-- C1: for every state, every index `which < MAX_SCREEN_COUNT`, every generator
`cb` and every data pointer `data`, `register_ui_callback which cb data` gives
control back without throwing, and afterwards `callbacks[which] = cb` and
`callback_data[which] = data`. -/
theorem register_ui_callback_then_lookup (EXC_MEMORY_ERROR : Nat)
    (global : State MAX_SCREEN_COUNT Mem) (which : uint32_t)
    (cb : string_generation_callback) (data : void_ptr) (h : which < MAX_SCREEN_COUNT) :
    (register_ui_callback EXC_MEMORY_ERROR which cb data global).outcome = .returned () ∧
    (register_ui_callback EXC_MEMORY_ERROR which cb data global).state.prompt.callbacks
        ⟨which, h⟩ = cb ∧
    (register_ui_callback EXC_MEMORY_ERROR which cb data global).state.prompt.callback_data
        ⟨which, h⟩ = data := by
  have hge : ¬ which ≥ MAX_SCREEN_COUNT := Nat.not_le.mpr h
  simp [register_ui_callback, hge]

/-- C1, instantiated: registering `(0xC0DE, 0xDA7A)` at slot 2 of a three-screen
registry. -/
theorem register_ui_callback_then_lookup_witness :
    (2 : Nat) < 3 ∧
    (register_ui_callback 0x9200 2 0xC0DE 0xDA7A state0).outcome = .returned () ∧
    (register_ui_callback 0x9200 2 0xC0DE 0xDA7A state0).state.prompt.callbacks
        ⟨2, by decide⟩ = 0xC0DE ∧
    (register_ui_callback 0x9200 2 0xC0DE 0xDA7A state0).state.prompt.callback_data
        ⟨2, by decide⟩ = 0xDA7A :=
  ⟨by decide, register_ui_callback_then_lookup 0x9200 state0 2 0xC0DE 0xDA7A (by decide)⟩

/-- C2: for every state and every index `which >= MAX_SCREEN_COUNT`,
`register_ui_callback which cb data` throws `EXC_MEMORY_ERROR`, the state after
the call (both prompt arrays and all other memory) is the state before it, and
no platform primitive is invoked. -/
theorem register_ui_callback_out_of_range (EXC_MEMORY_ERROR : Nat)
    (global : State MAX_SCREEN_COUNT Mem) (which : uint32_t)
    (cb : string_generation_callback) (data : void_ptr) (h : which ≥ MAX_SCREEN_COUNT) :
    (register_ui_callback EXC_MEMORY_ERROR which cb data global).outcome
        = .thrown EXC_MEMORY_ERROR ∧
    (register_ui_callback EXC_MEMORY_ERROR which cb data global).state = global ∧
    (register_ui_callback EXC_MEMORY_ERROR which cb data global).calls = [] := by
  simp [register_ui_callback, h, THROW]

/-- C2, instantiated at the largest `uint32_t`, `2^32 - 1`, on a three-screen
registry. -/
theorem register_ui_callback_out_of_range_witness :
    (4294967295 : Nat) ≥ 3 ∧
    (register_ui_callback 0x9200 4294967295 0xC0DE 0xDA7A state0).outcome
        = .thrown 0x9200 ∧
    (register_ui_callback 0x9200 4294967295 0xC0DE 0xDA7A state0).state = state0 ∧
    (register_ui_callback 0x9200 4294967295 0xC0DE 0xDA7A state0).calls = [] :=
  ⟨by decide, register_ui_callback_out_of_range 0x9200 state0 4294967295 0xC0DE 0xDA7A
    (by decide)⟩

/-- C6: re-registering a used index overwrites it. For `which < MAX_SCREEN_COUNT`,
running `register_ui_callback which cb1 data1` and then
`register_ui_callback which cb2 data2` ends exactly as
`register_ui_callback which cb2 data2` alone does (same outcome, same state,
same calls), and slot `which` holds `(cb2, data2)`. -/
theorem register_ui_callback_last_write_wins (EXC_MEMORY_ERROR : Nat)
    (global : State MAX_SCREEN_COUNT Mem) (which : uint32_t)
    (cb1 cb2 : string_generation_callback) (data1 data2 : void_ptr)
    (h : which < MAX_SCREEN_COUNT) :
    Prog.seq (register_ui_callback EXC_MEMORY_ERROR which cb1 data1)
        (fun _ => register_ui_callback EXC_MEMORY_ERROR which cb2 data2) global
      = register_ui_callback EXC_MEMORY_ERROR which cb2 data2 global ∧
    (Prog.seq (register_ui_callback EXC_MEMORY_ERROR which cb1 data1)
        (fun _ => register_ui_callback EXC_MEMORY_ERROR which cb2 data2)
        global).state.prompt.callbacks ⟨which, h⟩ = cb2 ∧
    (Prog.seq (register_ui_callback EXC_MEMORY_ERROR which cb1 data1)
        (fun _ => register_ui_callback EXC_MEMORY_ERROR which cb2 data2)
        global).state.prompt.callback_data ⟨which, h⟩ = data2 := by
  have hge : ¬ which ≥ MAX_SCREEN_COUNT := Nat.not_le.mpr h
  simp [Prog.seq, register_ui_callback, hge]

/-- C6, instantiated: slot 1 written twice on a three-screen registry. -/
theorem register_ui_callback_last_write_wins_witness :
    (Prog.seq (register_ui_callback 0x9200 1 0xAAAA 0xBBBB)
        (fun _ => register_ui_callback 0x9200 1 0xCCCC 0xDDDD) state0).state.prompt.callbacks
        ⟨1, by decide⟩ = 0xCCCC :=
  (register_ui_callback_last_write_wins 0x9200 state0 1 0xAAAA 0xCCCC 0xBBBB 0xDDDD
    (by decide)).2.1

/-- C8: `register_ui_callback` changes only the addressed slot. For
`which < MAX_SCREEN_COUNT` and every other cell `j`, `callbacks[j]` and
`callback_data[j]` keep their values, all memory outside the two prompt arrays
is unchanged, and no platform primitive is invoked. -/
theorem register_ui_callback_frame (EXC_MEMORY_ERROR : Nat)
    (global : State MAX_SCREEN_COUNT Mem) (which : uint32_t)
    (cb : string_generation_callback) (data : void_ptr) (j : Fin MAX_SCREEN_COUNT)
    (h : which < MAX_SCREEN_COUNT) (hj : j.val ≠ which) :
    (register_ui_callback EXC_MEMORY_ERROR which cb data global).state.prompt.callbacks j
      = global.prompt.callbacks j ∧
    (register_ui_callback EXC_MEMORY_ERROR which cb data global).state.prompt.callback_data j
      = global.prompt.callback_data j ∧
    (register_ui_callback EXC_MEMORY_ERROR which cb data global).state.rest = global.rest ∧
    (register_ui_callback EXC_MEMORY_ERROR which cb data global).calls = [] := by
  have hge : ¬ which ≥ MAX_SCREEN_COUNT := Nat.not_le.mpr h
  have hne : j ≠ ⟨which, h⟩ := fun e => hj (congrArg Fin.val e)
  simp [register_ui_callback, hge, Function.update_noteq hne]

/-- C8, instantiated: writing slot 2 of a three-screen registry leaves slot 0. -/
theorem register_ui_callback_frame_witness :
    (register_ui_callback 0x9200 2 0xC0DE 0xDA7A state0).state.prompt.callbacks 0
      = state0.prompt.callbacks 0 :=
  (register_ui_callback_frame 0x9200 state0 2 0xC0DE 0xDA7A 0 (by decide) (by decide)).1

/-- C9: registrations at distinct indices commute. For `i ≠ j`, both below
`MAX_SCREEN_COUNT`, registering `(cb1, data1)` at `i` and then `(cb2, data2)` at
`j` ends exactly as registering `(cb2, data2)` at `j` and then `(cb1, data1)` at
`i` (same outcome, same state, same calls). -/
theorem register_ui_callback_commute (EXC_MEMORY_ERROR : Nat)
    (global : State MAX_SCREEN_COUNT Mem) (i j : uint32_t)
    (cb1 cb2 : string_generation_callback) (data1 data2 : void_ptr)
    (hi : i < MAX_SCREEN_COUNT) (hj : j < MAX_SCREEN_COUNT) (hij : i ≠ j) :
    Prog.seq (register_ui_callback EXC_MEMORY_ERROR i cb1 data1)
        (fun _ => register_ui_callback EXC_MEMORY_ERROR j cb2 data2) global
      = Prog.seq (register_ui_callback EXC_MEMORY_ERROR j cb2 data2)
        (fun _ => register_ui_callback EXC_MEMORY_ERROR i cb1 data1) global := by
  have hgi : ¬ i ≥ MAX_SCREEN_COUNT := Nat.not_le.mpr hi
  have hgj : ¬ j ≥ MAX_SCREEN_COUNT := Nat.not_le.mpr hj
  have hne : (⟨i, hi⟩ : Fin MAX_SCREEN_COUNT) ≠ ⟨j, hj⟩ := fun e => hij (congrArg Fin.val e)
  simp [Prog.seq, register_ui_callback, hgi, hgj, Function.update_comm hne]

/-- C9, instantiated: slots 0 and 2 of a three-screen registry, in both orders. -/
theorem register_ui_callback_commute_witness :
    Prog.seq (register_ui_callback 0x9200 0 0xAAAA 0xBBBB)
        (fun _ => register_ui_callback 0x9200 2 0xCCCC 0xDDDD) state0
      = Prog.seq (register_ui_callback 0x9200 2 0xCCCC 0xDDDD)
        (fun _ => register_ui_callback 0x9200 0 0xAAAA 0xBBBB) state0 :=
  register_ui_callback_commute 0x9200 state0 0 2 0xAAAA 0xCCCC 0xBBBB 0xDDDD
    (by decide) (by decide) (by decide)

end Registry

/-! ## Theorems about `io_seproxyhal_display` -/

section Display

variable {MAX_SCREEN_COUNT : Nat} {Mem : Type}

/-- C7: `io_seproxyhal_display element` makes exactly one platform call, which
is `io_seproxyhal_display_default` with the very pointer it was given; it ends
the way that call ends; and application memory (the callback registry and
everything else, the pointed-to element included) is left as it was. -/
theorem io_seproxyhal_display_delegates (env : Platform) (element : bagl_element_ptr)
    (s : State MAX_SCREEN_COUNT Mem) :
    (io_seproxyhal_display env element s).calls
      = [ExtCall.io_seproxyhal_display_default element] ∧
    (io_seproxyhal_display env element s).state = s ∧
    (io_seproxyhal_display env element s).outcome
      = (match env.io_seproxyhal_display_default element with
         | .returns => .returned ()
         | .throws e => .thrown e
         | .terminates => .terminated
         | .hangs => .blocked) := by
  unfold io_seproxyhal_display invoke
  cases env.io_seproxyhal_display_default element <;> simp

end Display

/-! ## Theorems about `exit_app` -/

section Exit

variable {MAX_SCREEN_COUNT : Nat} {Mem : Type}

/-- C3: `exit_app` never returns normally to its caller. For every build, every
behaviour of `require_pin` and `os_sched_exit` and every state, the outcome is
not a returned `bool`; and when neither primitive keeps control forever, the
outcome is process termination or a thrown exception. -/
theorem exit_app_never_returns (BAKING_APP : Bool) (env : Platform)
    (s : State MAX_SCREEN_COUNT Mem) :
    (∀ value : Bool, (exit_app BAKING_APP env s).outcome ≠ .returned value) ∧
    (env.require_pin ≠ .hangs → env.os_sched_exit (-1) ≠ .hangs →
      (exit_app BAKING_APP env s).outcome = .terminated ∨
      ∃ exception, (exit_app BAKING_APP env s).outcome = .thrown exception) := by
  unfold exit_app
  generalize env.require_pin = pin
  generalize env.os_sched_exit (-1) = sched
  cases BAKING_APP <;> cases pin <;> cases sched <;>
    simp [bind, pure, Prog.seq, Prog.ret, try_finally, invoke, THROW]

/-- C3, instantiated: on a baking build whose `os_sched_exit` gives control
back, `exit_app` ends with a thrown exception. -/
theorem exit_app_never_returns_witness :
    exit_returns.require_pin ≠ .hangs ∧ exit_returns.os_sched_exit (-1) ≠ .hangs ∧
    ((exit_app true exit_returns state0).outcome = .terminated ∨
      ∃ exception, (exit_app true exit_returns state0).outcome = .thrown exception) :=
  ⟨by decide, by decide,
    (exit_app_never_returns true exit_returns state0).2 (by decide) (by decide)⟩

/-- C4: on a build with `BAKING_APP`, `os_sched_exit` is invoked only after
`require_pin` has returned: whenever an `os_sched_exit` call is among the calls
of `exit_app`, `require_pin` returned and was the call made just before it; and
when `require_pin` does not return (it throws, terminates the process or keeps
control), the only call made is `require_pin`, so `os_sched_exit` is never
invoked. -/
theorem exit_app_pin_gates_exit (env : Platform) (s : State MAX_SCREEN_COUNT Mem) :
    (∀ exit_code, ExtCall.os_sched_exit exit_code ∈ (exit_app true env s).calls →
      env.require_pin = .returns ∧
      (exit_app true env s).calls = [.require_pin, .os_sched_exit exit_code]) ∧
    (env.require_pin ≠ .returns →
      (exit_app true env s).calls = [.require_pin] ∧
      ∀ exit_code, ExtCall.os_sched_exit exit_code ∉ (exit_app true env s).calls) := by
  unfold exit_app
  generalize env.require_pin = pin
  generalize env.os_sched_exit (-1) = sched
  cases pin <;> cases sched <;>
    simp [bind, pure, Prog.seq, Prog.ret, try_finally, invoke, THROW]

/-- C4, instantiated: the PIN check throws, and `require_pin` is the only call. -/
theorem exit_app_pin_gates_exit_witness :
    pin_refused.require_pin ≠ .returns ∧
    (exit_app true pin_refused state0).calls = [.require_pin] ∧
    ExtCall.os_sched_exit (-1) ∉ (exit_app true pin_refused state0).calls :=
  have h := (exit_app_pin_gates_exit pin_refused state0).2 (by decide)
  ⟨by decide, h.1, h.2 (-1)⟩

/-- C5: whenever `exit_app` gets past the authentication step (the build has no
`BAKING_APP`, or `require_pin` returned), it invokes `os_sched_exit` exactly
once, as `os_sched_exit(-1)`, whatever that call then does; and `-1` is
non-zero as a signed integer and as an unsigned integer of any positive width. -/
theorem exit_app_requests_exit_once (BAKING_APP : Bool) (env : Platform)
    (s : State MAX_SCREEN_COUNT Mem)
    (hauth : BAKING_APP = true → env.require_pin = .returns) :
    (exit_app BAKING_APP env s).calls
      = (if BAKING_APP then [ExtCall.require_pin] else []) ++ [ExtCall.os_sched_exit (-1)] ∧
    (exit_app BAKING_APP env s).calls.filter is_os_sched_exit = [ExtCall.os_sched_exit (-1)] ∧
    (-1 : Int) ≠ 0 ∧
    ∀ width, 0 < width → to_unsigned width (-1) ≠ 0 := by
  refine ⟨?_, ?_, by decide, ?_⟩
  · unfold exit_app
    generalize env.require_pin = pin at hauth
    generalize env.os_sched_exit (-1) = sched
    cases BAKING_APP <;> cases pin <;> cases sched <;>
      simp_all [bind, pure, Prog.seq, Prog.ret, try_finally, invoke, THROW]
  · unfold exit_app
    generalize env.require_pin = pin at hauth
    generalize env.os_sched_exit (-1) = sched
    cases BAKING_APP <;> cases pin <;> cases sched <;>
      simp_all [bind, pure, Prog.seq, Prog.ret, try_finally, invoke, THROW, is_os_sched_exit]
  · intro width hw
    have h1 : (1 : Int) < 2 ^ width := by
      have : (1 : Nat) < 2 ^ width := Nat.one_lt_two_pow (Nat.pos_iff_ne_zero.mp hw)
      exact_mod_cast this
    intro h0
    have hdvd : (2 : Int) ^ width ∣ 1 := (dvd_neg).mp (Int.dvd_of_emod_eq_zero h0)
    have h2 : (2 : Int) ^ width = 1 := Int.eq_one_of_dvd_one (by positivity) hdvd
    omega

/-- C5, instantiated: a baking build whose PIN check returns. -/
theorem exit_app_requests_exit_once_witness :
    (exit_app true nominal state0).calls = [.require_pin, .os_sched_exit (-1)] ∧
    (exit_app true nominal state0).calls.filter is_os_sched_exit = [.os_sched_exit (-1)] ∧
    to_unsigned 32 (-1) ≠ 0 :=
  have h := exit_app_requests_exit_once true nominal state0 (fun _ => rfl)
  ⟨h.1, h.2.1, h.2.2.2 32 (by decide)⟩

/-- C10: on a build without `BAKING_APP`, `exit_app` performs no authentication:
`require_pin` is never invoked and the first (and only) platform call is
`os_sched_exit(-1)`. On either build, if `os_sched_exit` is invoked and gives
control back, `exit_app` ends by `THROW(0)`. -/
theorem exit_app_no_pin_and_fallback (BAKING_APP : Bool) (env : Platform)
    (s : State MAX_SCREEN_COUNT Mem) :
    ((exit_app false env s).calls = [.os_sched_exit (-1)] ∧
      ExtCall.require_pin ∉ (exit_app false env s).calls ∧
      (exit_app false env s).calls.head? = some (.os_sched_exit (-1))) ∧
    (ExtCall.os_sched_exit (-1) ∈ (exit_app BAKING_APP env s).calls →
      env.os_sched_exit (-1) = .returns →
      (exit_app BAKING_APP env s).outcome = .thrown 0) := by
  unfold exit_app
  generalize env.require_pin = pin
  generalize env.os_sched_exit (-1) = sched
  cases BAKING_APP <;> cases pin <;> cases sched <;>
    simp [bind, pure, Prog.seq, Prog.ret, try_finally, invoke, THROW]

/-- C10, instantiated: a baking build whose `os_sched_exit` gives control back. -/
theorem exit_app_no_pin_and_fallback_witness :
    ExtCall.os_sched_exit (-1) ∈ (exit_app true exit_returns state0).calls ∧
    exit_returns.os_sched_exit (-1) = .returns ∧
    (exit_app true exit_returns state0).outcome = .thrown 0 :=
  ⟨by decide, by decide,
    (exit_app_no_pin_and_fallback true exit_returns state0).2 (by decide) (by decide)⟩

end Exit

end UiCommon
